import Mathlib

/-!
# Verification of the Leitungsteam Platform auth core and phase classifier

Shallow embedding of the two core subsystems of the repository:

* the OAuth device-code token lifecycle manager
  (`src/lib/services/dataverse/tokenService.ts`), and
* the lifecycle/phase classifier
  (`src/lib/constants/bpfStages.ts` and the range classifier in
  `src/app/vorhaben/[id]/page.tsx`).

Modelling conventions:

* The file-backed token cache is the only mutable state; every stateful
  operation is embedded as an explicit state-passing function
  `... → TokenStore → Result × TokenStore` where `TokenStore := Option TokenCache`
  (`none` models "no cache file / unreadable cache file").
* Network round trips are modelled by passing the provider's (parsed JSON)
  response as an explicit argument; an operation that performs no network
  call simply has no such argument (or provably ignores it).
* JavaScript truthiness on optional string fields: the code only ever tests
  such fields with `if (x)` or `x || y`, for which `undefined` and `""`
  behave identically, so an absent-or-empty string field is modelled as `""`.
  Likewise the optional numeric `interval` field is only used as
  `interval || 5`, for which `undefined` and `0` behave identically, so
  absence is modelled as `0`.
* Epoch-millisecond timestamps (`Date.now()`, `expiresAt`) are `Int`.
-/

/-- The `TokenCache` interface (`src/lib/services/dataverse/types.ts`):
the persisted credential. -/
structure TokenCache where
  accessToken : String
  refreshToken : String
  expiresAt : Int
  resource : String
deriving DecidableEq, Repr

/-- State of the file-backed credential store: `none` when no cache file
exists (or it is unreadable), `some c` when a credential is stored. -/
abbrev TokenStore := Option TokenCache

/-- `loadTokenCache`: reads the cache file; `null` when absent/unreadable. -/
def loadTokenCache (store : TokenStore) : Option TokenCache := store

/-- `saveTokenCache`: whole-file replace of the stored credential. -/
def saveTokenCache (cache : TokenCache) (_store : TokenStore) : TokenStore :=
  some cache

/-- `clearTokenCache`: deletes the cache file (no-op errors are swallowed). -/
def clearTokenCache (_store : TokenStore) : TokenStore := none

/-- `TOKEN_REFRESH_BUFFER_MS = 5 * 60 * 1000`: refresh 5 minutes before expiry. -/
def TOKEN_REFRESH_BUFFER_MS : Int := 5 * 60 * 1000

/-- JavaScript `x || y` on a string field: `undefined`/`""` fall back to `y`. -/
def jsOrElse (x y : String) : String := if x = "" then y else x

/-- Model of JavaScript `String.prototype.toLowerCase` (character-wise
lowercasing; the stage GUIDs compared against are ASCII). -/
def jsToLowerCase (s : String) : String := ⟨s.data.map Char.toLower⟩

/-! ## Device code flow: initiate (`initiateDeviceCodeFlow`) -/

/-- Parsed JSON body of a successful device-code endpoint response.
`verification_url`/`verification_uri`: Azure AD v1 uses the former, v2 the
latter; absent field modelled as `""`. Absent `interval` modelled as `0`. -/
structure DeviceCodeData where
  device_code : String
  user_code : String
  verification_url : String
  verification_uri : String
  expires_in : Int
  interval : Int
  message : String
deriving DecidableEq, Repr

/-- The `DeviceCodeResponse` value returned by `initiateDeviceCodeFlow`. -/
structure DeviceCodeResponse where
  device_code : String
  user_code : String
  verification_url : String
  expires_in : Int
  interval : Int
  message : String
deriving DecidableEq, Repr

/-- Outcome of the device-code endpoint round trip. -/
inductive InitiateWire where
  | failure (status : Nat) (text : String)
  | success (d : DeviceCodeData)
deriving DecidableEq, Repr

/-- Result of `initiateDeviceCodeFlow`: a thrown configuration error, a
thrown error for a non-2xx provider response, or the device code data. -/
inductive InitiateResult where
  | configurationError (msg : String)
  | httpError (status : Nat) (text : String)
  | ok (r : DeviceCodeResponse)
deriving DecidableEq, Repr

/-- `initiateDeviceCodeFlow` (tokenService.ts): throws when `DATAVERSE_URL`
is unset, otherwise posts to the device-code endpoint and normalises the
response. Never touches the credential store. -/
def initiateDeviceCodeFlow (dataverseUrl : String) (wire : InitiateWire)
    (store : TokenStore) : InitiateResult × TokenStore :=
  if dataverseUrl = "" then
    (.configurationError "DATAVERSE_URL ist nicht konfiguriert. Bitte .env.local prüfen.", store)
  else
    match wire with
    | .failure status text => (.httpError status text, store)
    | .success d =>
        (.ok { device_code := d.device_code
               user_code := d.user_code
               verification_url := jsOrElse d.verification_url d.verification_uri
               expires_in := d.expires_in
               interval := if d.interval = 0 then 5 else d.interval
               message := d.message }, store)

/-! ## Device code flow: poll (`pollForToken`) -/

/-- Parsed JSON body of the token endpoint's reply to a device-code poll.
`error`/`error_description` are absent (`""`) on success; on success the
token fields are populated. The code never checks the HTTP status here, it
only inspects the parsed body, so the body is the whole model. -/
structure PollData where
  error : String
  error_description : String
  access_token : String
  refresh_token : String
  expires_in : Int
  resource : String
deriving DecidableEq, Repr

/-- The four poll statuses of `pollForToken`. -/
inductive PollStatus where
  | pending
  | success
  | expired
  | error
deriving DecidableEq, Repr

/-- Return value of `pollForToken`: `{ status, error? }`. -/
structure PollResult where
  status : PollStatus
  error : Option String := none
deriving DecidableEq, Repr

/-- `pollForToken` (tokenService.ts): one-shot poll of the token endpoint.
`authorization_pending` → pending; `expired_token` → expired; any other
truthy `error` → error with `error_description || error`; otherwise the
body is a token response and the credential is saved. -/
def pollForToken (dataverseUrl : String) (_deviceCode : String) (data : PollData)
    (now : Int) (store : TokenStore) : PollResult × TokenStore :=
  if data.error ≠ "" then
    if data.error = "authorization_pending" then
      ({ status := .pending }, store)
    else if data.error = "expired_token" then
      ({ status := .expired
         error := some "Der Anmelde-Code ist abgelaufen. Bitte erneut starten." }, store)
    else
      ({ status := .error
         error := some (jsOrElse data.error_description data.error) }, store)
  else
    let cache : TokenCache :=
      { accessToken := data.access_token
        refreshToken := data.refresh_token
        expiresAt := now + data.expires_in * 1000
        resource := jsOrElse data.resource dataverseUrl }
    ({ status := .success }, saveTokenCache cache store)

/-! ## Token refresh (`refreshAccessToken`) -/

/-- Parsed JSON body of a successful refresh-token round trip
(the `TokenResponse` interface); optional fields modelled as `""`. -/
structure TokenResponse where
  access_token : String
  refresh_token : String
  expires_in : Int
  resource : String
deriving DecidableEq, Repr

/-- Outcome of the refresh round trip: the `fetch` threw (network error),
the response was non-2xx, or a parsed token response. -/
inductive RefreshWire where
  | netError
  | failure (status : Nat)
  | success (data : TokenResponse)
deriving DecidableEq, Repr

/-- `refreshAccessToken` (tokenService.ts): returns `false` when no cache or
no refresh token; on a non-2xx response clears the cache and returns
`false`; on a thrown network error returns `false` leaving the cache as-is;
on success saves the new credential, keeping the old refresh token /
resource when the response omits them. -/
def refreshAccessToken (_dataverseUrl : String) (wire : RefreshWire) (now : Int)
    (store : TokenStore) : Bool × TokenStore :=
  match loadTokenCache store with
  | none => (false, store)
  | some cache =>
    if cache.refreshToken = "" then (false, store)
    else
      match wire with
      | .netError => (false, store)
      | .failure _ => (false, clearTokenCache store)
      | .success data =>
          let newCache : TokenCache :=
            { accessToken := data.access_token
              refreshToken := jsOrElse data.refresh_token cache.refreshToken
              expiresAt := now + data.expires_in * 1000
              resource := jsOrElse data.resource cache.resource }
          (true, saveTokenCache newCache store)

/-! ## Public API -/

/-- `isAuthenticated` (tokenService.ts): pure read of the cache file;
true iff a credential with a truthy access token exists and has not expired. -/
def isAuthenticated (now : Int) (store : TokenStore) : Bool × TokenStore :=
  match loadTokenCache store with
  | none => (false, store)
  | some cache =>
    if cache.accessToken = "" then (false, store)
    else (decide (cache.expiresAt > now), store)

/-- Errors thrown by `getValidToken`. `crashed` models the `TypeError` a
failed `newCache!` non-null assertion would raise. -/
inductive TokenError where
  | notAuthenticated (msg : String)
  | refreshFailed (msg : String)
  | crashed
deriving DecidableEq, Repr

/-- `getValidToken` (tokenService.ts): throws when no credential with a
truthy access token exists; refreshes first when `expiresAt - now` is below
the 5-minute buffer, throwing when the refresh reports failure; otherwise
returns the (possibly refreshed) access token. -/
def getValidToken (dataverseUrl : String) (wire : RefreshWire) (now : Int)
    (store : TokenStore) : Except TokenError String × TokenStore :=
  match loadTokenCache store with
  | none => (.error (.notAuthenticated "Nicht authentifiziert. Bitte zuerst anmelden."), store)
  | some cache =>
    if cache.accessToken = "" then
      (.error (.notAuthenticated "Nicht authentifiziert. Bitte zuerst anmelden."), store)
    else if cache.expiresAt - now < TOKEN_REFRESH_BUFFER_MS then
      match refreshAccessToken dataverseUrl wire now store with
      | (false, store2) =>
          (.error (.refreshFailed "Token konnte nicht erneuert werden. Bitte erneut anmelden."),
           store2)
      | (true, store2) =>
          match loadTokenCache store2 with
          | some newCache => (.ok newCache.accessToken, store2)
          | none => (.error .crashed, store2)
    else
      (.ok cache.accessToken, store)

/-- Auth status record returned by `getAuthStatus`. -/
structure AuthStatus where
  isAuthenticated : Bool
  expiresIn : Option Int := none
deriving DecidableEq, Repr

/-- `getAuthStatus` (tokenService.ts): read-only status for the UI;
`expiresIn` is whole seconds until expiry (`Math.floor`). -/
def getAuthStatus (now : Int) (store : TokenStore) : AuthStatus × TokenStore :=
  match loadTokenCache store with
  | none => ({ isAuthenticated := false }, store)
  | some cache =>
    if cache.accessToken = "" ∨ cache.expiresAt ≤ now then
      ({ isAuthenticated := false }, store)
    else
      ({ isAuthenticated := true
         expiresIn := some ((cache.expiresAt - now).fdiv 1000) }, store)

/-- `logout` (tokenService.ts): unconditionally deletes the cache file. -/
def logout (store : TokenStore) : Unit × TokenStore :=
  ((), clearTokenCache store)

/-! ## Lifecycle/phase classifier -/

/-- `getBpfPhaseFromLifecycle` (`src/app/vorhaben/[id]/page.tsx`): maps a
numeric lifecycle status to the BPF phase 1..4 by contiguous inclusive
ranges; `!lifecycleStatus` (absent or `0`) and codes outside every range
default to phase 1 (Initialisierung). -/
def getBpfPhaseFromLifecycle (lifecycleStatus : Option Int) : Nat :=
  match lifecycleStatus with
  | none => 1
  | some s =>
    if s = 0 then 1
    else if 562520000 ≤ s ∧ s ≤ 562520002 then 1
    else if 562520003 ≤ s ∧ s ≤ 562520005 then 2
    else if 562520006 ≤ s ∧ s ≤ 562520009 then 3
    else if 562520010 ≤ s ∧ s ≤ 562520011 then 4
    else 1

/-- `BPF_STAGE_IDS.INITIALISIERUNG` (`src/lib/constants/bpfStages.ts`). -/
def BPF_STAGE_IDS_INITIALISIERUNG : String := "d770e370-8da5-48b9-b36e-69a33e7d8879"

/-- `BPF_STAGE_IDS.ANALYSE_BEWERTUNG` (`src/lib/constants/bpfStages.ts`). -/
def BPF_STAGE_IDS_ANALYSE_BEWERTUNG : String := "65c7768d-2a18-40b9-9dd6-035819e926ba"

/-- `BPF_STAGE_IDS.PLANUNG` (`src/lib/constants/bpfStages.ts`). -/
def BPF_STAGE_IDS_PLANUNG : String := "49e8aa6a-d56f-48fa-b80a-2edfc816fffa"

/-- `BPF_STAGE_IDS.UMSETZUNG` (`src/lib/constants/bpfStages.ts`). -/
def BPF_STAGE_IDS_UMSETZUNG : String := "b8209429-fea3-4fde-9440-2bc168bf14b3"

/-- `getPhaseFromStageId` (`src/lib/constants/bpfStages.ts`): maps a stage
GUID (lower-cased) to phase 1..4; falsy or unmatched input yields 1. -/
def getPhaseFromStageId (stageId : Option String) : Nat :=
  match stageId with
  | none => 1
  | some s =>
    if s = "" then 1
    else if jsToLowerCase s = BPF_STAGE_IDS_INITIALISIERUNG then 1
    else if jsToLowerCase s = BPF_STAGE_IDS_ANALYSE_BEWERTUNG then 2
    else if jsToLowerCase s = BPF_STAGE_IDS_PLANUNG then 3
    else if jsToLowerCase s = BPF_STAGE_IDS_UMSETZUNG then 4
    else 1

/-- `getPhaseNameFromStageId` (`src/lib/constants/bpfStages.ts`): maps a
stage GUID (lower-cased) to the phase name; falsy input yields
"Initialisierung" but an unmatched non-empty id yields "Unbekannt". -/
def getPhaseNameFromStageId (stageId : Option String) : String :=
  match stageId with
  | none => "Initialisierung"
  | some s =>
    if s = "" then "Initialisierung"
    else if jsToLowerCase s = BPF_STAGE_IDS_INITIALISIERUNG then "Initialisierung"
    else if jsToLowerCase s = BPF_STAGE_IDS_ANALYSE_BEWERTUNG then "Analyse & Bewertung"
    else if jsToLowerCase s = BPF_STAGE_IDS_PLANUNG then "Planung"
    else if jsToLowerCase s = BPF_STAGE_IDS_UMSETZUNG then "Umsetzung"
    else "Unbekannt"

/-! ## Theorems -/

/-- C2: `classifyByLifecycleStatus` (`getBpfPhaseFromLifecycle`) is total:
every integer in [0, 562520011] yields one of the four phases; codes outside
the four contiguous ranges and absent input default to phase 1
(Initialisierung); 562520007 ↦ 3 (Planung), 562520010 ↦ 4 (Umsetzung),
999 ↦ 1, `undefined` ↦ 1. -/
theorem C2_classifyByLifecycleStatus_total :
    (∀ s : Int, 0 ≤ s → s ≤ 562520011 →
        getBpfPhaseFromLifecycle (some s) = 1 ∨ getBpfPhaseFromLifecycle (some s) = 2 ∨
        getBpfPhaseFromLifecycle (some s) = 3 ∨ getBpfPhaseFromLifecycle (some s) = 4) ∧
    (∀ s : Int, ¬(562520000 ≤ s ∧ s ≤ 562520011) → getBpfPhaseFromLifecycle (some s) = 1) ∧
    getBpfPhaseFromLifecycle none = 1 ∧
    getBpfPhaseFromLifecycle (some 562520007) = 3 ∧
    getBpfPhaseFromLifecycle (some 562520010) = 4 ∧
    getBpfPhaseFromLifecycle (some 999) = 1 := by
  refine ⟨?_, ?_, by decide, by decide, by decide, by decide⟩
  · intro s _ _
    simp only [getBpfPhaseFromLifecycle]
    split_ifs <;> simp
  · intro s hs
    simp only [getBpfPhaseFromLifecycle]
    split_ifs <;> omega

/-- Witness for C2 at code 562520004 (Analyse & Bewertung range). -/
theorem C2_witness :
    getBpfPhaseFromLifecycle (some 562520004) = 1 ∨
    getBpfPhaseFromLifecycle (some 562520004) = 2 ∨
    getBpfPhaseFromLifecycle (some 562520004) = 3 ∨
    getBpfPhaseFromLifecycle (some 562520004) = 4 :=
  C2_classifyByLifecycleStatus_total.1 562520004 (by decide) (by decide)

/-- C4 counterexample: a credential with an empty `accessToken` and
`expiresAt = 10` is stored and `now = 0`, so a stored credential exists with
`expiresAt > now`, yet `isAuthenticated` returns false — refuting the claim
that `isAuthenticated` is true whenever a stored credential has
`expiresAt > now`. -/
theorem C4_isAuthenticated_cex :
    (10 : Int) > 0 ∧ (isAuthenticated 0 (some ⟨"", "r", 10, "res"⟩)).1 = false := by
  exact ⟨by decide, rfl⟩

/-- C4 (amended): for every store state and time, `isAuthenticated()` is
true iff a stored credential exists with a NON-EMPTY `accessToken` and
`expiresAt` strictly greater than now; the store is left unchanged
(no mutation; the embedding has no network argument, so no I/O). -/
theorem C4_isAuthenticated_iff (now : Int) (store : TokenStore) :
    ((isAuthenticated now store).1 = true ↔
      ∃ c : TokenCache, store = some c ∧ c.accessToken ≠ "" ∧ c.expiresAt > now) ∧
    (isAuthenticated now store).2 = store := by
  cases store with
  | none => exact ⟨by simp [isAuthenticated, loadTokenCache], rfl⟩
  | some c =>
      constructor
      · simp only [isAuthenticated, loadTokenCache]
        by_cases h : c.accessToken = ""
        · simp [h]
        · simp [h]
      · simp only [isAuthenticated, loadTokenCache]
        by_cases h : c.accessToken = "" <;> simp [h]

/-- Witness for C4 (amended) at a concrete authenticated store. -/
theorem C4_witness : (isAuthenticated 0 (some ⟨"tok", "r", 10, "res"⟩)).1 = true :=
  (C4_isAuthenticated_iff 0 (some ⟨"tok", "r", 10, "res"⟩)).1.mpr
    ⟨⟨"tok", "r", 10, "res"⟩, rfl, by decide, by decide⟩

/-- C7: `getAuthStatus()` is read-only: the store is unchanged, `expiresIn`
is present exactly when `isAuthenticated`, and its `isAuthenticated` field
agrees with `isAuthenticated()`; the embedding takes no refresh/network
argument, so it provably cannot trigger a refresh round trip. -/
theorem C7_getAuthStatus_readonly (now : Int) (store : TokenStore) :
    (getAuthStatus now store).2 = store ∧
    ((getAuthStatus now store).1.isAuthenticated = true ↔
      ((getAuthStatus now store).1.expiresIn).isSome = true) ∧
    (getAuthStatus now store).1.isAuthenticated = (isAuthenticated now store).1 := by
  cases store with
  | none => exact ⟨rfl, by simp [getAuthStatus, loadTokenCache], rfl⟩
  | some c =>
      by_cases ha : c.accessToken = ""
      · refine ⟨?_, ?_, ?_⟩ <;>
          simp [getAuthStatus, isAuthenticated, loadTokenCache, ha]
      · by_cases he : c.expiresAt ≤ now
        · refine ⟨?_, ?_, ?_⟩ <;>
            simp [getAuthStatus, isAuthenticated, loadTokenCache, ha, he, not_lt.mpr he]
        · refine ⟨?_, ?_, ?_⟩ <;>
            simp [getAuthStatus, isAuthenticated, loadTokenCache, ha, he, lt_of_not_le he]

/-- Witness for C7 at a concrete store. -/
theorem C7_witness :
    (getAuthStatus 0 (some ⟨"tok", "r", 12345, "res"⟩)).2 = some ⟨"tok", "r", 12345, "res"⟩ :=
  (C7_getAuthStatus_readonly 0 (some ⟨"tok", "r", 12345, "res"⟩)).1

/-- C8: `initiate()` never changes the credential store; with the base
resource URL unconfigured it throws the configuration error and its result
is independent of the network outcome (no network call is observable); on
success it returns the normalised `DeviceAuthorizationRequest`. -/
theorem C8_initiate_behaviour (url : String) (wire wire2 : InitiateWire) (store : TokenStore) :
    (initiateDeviceCodeFlow url wire store).2 = store ∧
    (url = "" →
      (initiateDeviceCodeFlow url wire store).1
        = .configurationError "DATAVERSE_URL ist nicht konfiguriert. Bitte .env.local prüfen." ∧
      initiateDeviceCodeFlow url wire store = initiateDeviceCodeFlow url wire2 store) ∧
    (∀ d : DeviceCodeData, wire = .success d → url ≠ "" →
      (initiateDeviceCodeFlow url wire store).1
        = .ok { device_code := d.device_code
                user_code := d.user_code
                verification_url := jsOrElse d.verification_url d.verification_uri
                expires_in := d.expires_in
                interval := if d.interval = 0 then 5 else d.interval
                message := d.message }) := by
  refine ⟨?_, fun h => ?_, fun d hw hu => ?_⟩
  · simp only [initiateDeviceCodeFlow]
    split_ifs
    · rfl
    · cases wire <;> rfl
  · subst h
    exact ⟨rfl, rfl⟩
  · subst hw
    simp only [initiateDeviceCodeFlow, if_neg hu]

/-- Witness for C8: unconfigured URL yields the configuration error. -/
theorem C8_witness :
    (initiateDeviceCodeFlow "" (.failure 400 "t") none).1
      = .configurationError "DATAVERSE_URL ist nicht konfiguriert. Bitte .env.local prüfen." :=
  ((C8_initiate_behaviour "" (.failure 400 "t") (.failure 500 "u") none).2.1 rfl).1

/-- C9: `logout()` is idempotent and never throws (its embedding is total
and returns `Unit`): after `logout` the store is empty, `isAuthenticated`
is false at every time, and a second `logout` leaves the same state. -/
theorem C9_logout_idempotent (store : TokenStore) :
    (logout store).2 = none ∧
    (∀ now : Int, (isAuthenticated now (logout store).2).1 = false) ∧
    logout (logout store).2 = logout store := by
  exact ⟨rfl, fun _ => rfl, rfl⟩

/-- Witness for C9 with no credential stored. -/
theorem C9_witness : (logout none).2 = none :=
  (C9_logout_idempotent none).1

/-- C10: a successful refresh replaces `accessToken`/`expiresAt` from the
provider response, but keeps the previous credential's `refreshToken` when
the response omits it and the previous `resource` when the response omits
it — a refresh never discards a still-usable refresh token. -/
theorem C10_refresh_preserves (url : String) (cache : TokenCache) (data : TokenResponse)
    (now : Int) (hrt : cache.refreshToken ≠ "") :
    ∃ c' : TokenCache,
      refreshAccessToken url (.success data) now (some cache) = (true, some c') ∧
      c'.accessToken = data.access_token ∧
      c'.expiresAt = now + data.expires_in * 1000 ∧
      (data.refresh_token = "" → c'.refreshToken = cache.refreshToken) ∧
      (data.resource = "" → c'.resource = cache.resource) := by
  refine ⟨{ accessToken := data.access_token
            refreshToken := jsOrElse data.refresh_token cache.refreshToken
            expiresAt := now + data.expires_in * 1000
            resource := jsOrElse data.resource cache.resource }, ?_, rfl, rfl, ?_, ?_⟩
  · simp [refreshAccessToken, loadTokenCache, saveTokenCache, hrt]
  · intro h
    simp [jsOrElse, h]
  · intro h
    simp [jsOrElse, h]

/-- Witness for C10: a concrete refresh whose response omits both optional
fields succeeds. -/
theorem C10_witness :
    (refreshAccessToken "u10" (.success ⟨"newtok", "", 3600, ""⟩) 1000
        (some ⟨"oldtok", "oldref", 5000, "oldres"⟩)).1 = true := by
  obtain ⟨c', h, -, -, -, -⟩ := C10_refresh_preserves "u10"
    ⟨"oldtok", "oldref", 5000, "oldres"⟩ ⟨"newtok", "", 3600, ""⟩ 1000 (by decide)
  rw [h]

/-- C5 counterexample: the unmatched non-empty stage id "deadbeef" makes the
phase-NAME classification return "Unbekannt", not the "Initialisierung"
fallback the claim asserts for both classifications. -/
theorem C5_stage_fallback_cex :
    getPhaseNameFromStageId (some "deadbeef") = "Unbekannt" ∧
    getPhaseNameFromStageId (some "deadbeef") ≠ "Initialisierung" := by
  exact ⟨rfl, by decide⟩

/-- C5 (amended): the stage-id lookup is a fixed four-entry table; absent or
unmatched input falls back to phase 1 (Initialisierung) in the phase-NUMBER
classification, and absent input falls back to "Initialisierung" in the
phase-NAME classification, but an unmatched non-empty id yields "Unbekannt"
there. -/
theorem C5_stage_lookup_fallback (s : String)
    (hs : s ≠ "")
    (h1 : jsToLowerCase s ≠ BPF_STAGE_IDS_INITIALISIERUNG)
    (h2 : jsToLowerCase s ≠ BPF_STAGE_IDS_ANALYSE_BEWERTUNG)
    (h3 : jsToLowerCase s ≠ BPF_STAGE_IDS_PLANUNG)
    (h4 : jsToLowerCase s ≠ BPF_STAGE_IDS_UMSETZUNG) :
    getPhaseFromStageId (some s) = 1 ∧
    getPhaseFromStageId none = 1 ∧
    getPhaseFromStageId (some "") = 1 ∧
    getPhaseNameFromStageId none = "Initialisierung" ∧
    getPhaseNameFromStageId (some "") = "Initialisierung" ∧
    getPhaseNameFromStageId (some s) = "Unbekannt" ∧
    getPhaseFromStageId (some BPF_STAGE_IDS_INITIALISIERUNG) = 1 ∧
    getPhaseFromStageId (some BPF_STAGE_IDS_ANALYSE_BEWERTUNG) = 2 ∧
    getPhaseFromStageId (some BPF_STAGE_IDS_PLANUNG) = 3 ∧
    getPhaseFromStageId (some BPF_STAGE_IDS_UMSETZUNG) = 4 := by
  refine ⟨?_, rfl, by decide, rfl, by decide, ?_,
    by decide, by decide, by decide, by decide⟩
  · simp [getPhaseFromStageId, hs, h1, h2, h3, h4]
  · simp [getPhaseNameFromStageId, hs, h1, h2, h3, h4]

/-- Witness for C5 (amended) at the unmatched stage id "zzz". -/
theorem C5_witness : getPhaseFromStageId (some "zzz") = 1 :=
  (C5_stage_lookup_fallback "zzz" (by decide) (by decide) (by decide)
    (by decide) (by decide)).1

/-- C3: `poll(deviceCode)` is a one-shot status check fully determined by
the provider's parsed response, for every store state (so repeated polls
before authorization return pending without changing the store, and an
elapsed window reported by the provider yields expired regardless of any
prior polls): `authorization_pending` → pending (store unchanged);
`expired_token` → expired (store unchanged); success body → credential
saved and success; any other reported error → error with the provider's
message (`error_description || error`) surfaced verbatim (store unchanged). -/
theorem C3_pollForToken_cases (url dc : String) (data : PollData) (now : Int)
    (store : TokenStore) :
    (data.error = "authorization_pending" →
      pollForToken url dc data now store = ({ status := .pending }, store)) ∧
    (data.error = "expired_token" →
      pollForToken url dc data now store
        = ({ status := .expired
             error := some "Der Anmelde-Code ist abgelaufen. Bitte erneut starten." }, store)) ∧
    (data.error = "" →
      pollForToken url dc data now store
        = ({ status := .success },
           some { accessToken := data.access_token
                  refreshToken := data.refresh_token
                  expiresAt := now + data.expires_in * 1000
                  resource := jsOrElse data.resource url })) ∧
    (data.error ≠ "" → data.error ≠ "authorization_pending" → data.error ≠ "expired_token" →
      pollForToken url dc data now store
        = ({ status := .error
             error := some (jsOrElse data.error_description data.error) }, store)) := by
  refine ⟨fun h => ?_, fun h => ?_, fun h => ?_, fun h1 h2 h3 => ?_⟩
  · simp [pollForToken, h]
  · simp [pollForToken, h]
  · simp [pollForToken, h, saveTokenCache]
  · simp [pollForToken, h1, h2, h3]

/-- Witness for C3: a concrete `authorization_pending` poll returns pending
and leaves the store unchanged. -/
theorem C3_witness :
    pollForToken "u3" "dc3" ⟨"authorization_pending", "", "", "", 0, ""⟩ 0 none
      = ({ status := .pending }, none) :=
  (C3_pollForToken_cases "u3" "dc3" ⟨"authorization_pending", "", "", "", 0, ""⟩ 0 none).1 rfl

/-- The character-wise lowercasing of a string is empty iff the string is. -/
lemma jsToLowerCase_eq_empty_iff (s : String) : jsToLowerCase s = "" ↔ s = "" := by
  obtain ⟨l⟩ := s
  constructor
  · intro h
    have h2 : l.map Char.toLower = [] := congrArg String.data h
    have h3 : l = [] := List.map_eq_nil_iff.mp h2
    rw [h3]
  · intro h
    rw [h]
    rfl

/-- C6: `classifyByStageId` is case-insensitive — any two strings with the
same lowercasing classify to the same phase — and both casings of the
Umsetzung stage GUID classify to phase 4. -/
theorem C6_getPhaseFromStageId_case_insensitive :
    (∀ s t : String, jsToLowerCase s = jsToLowerCase t →
      getPhaseFromStageId (some s) = getPhaseFromStageId (some t)) ∧
    getPhaseFromStageId (some "B8209429-FEA3-4FDE-9440-2BC168BF14B3") = 4 ∧
    getPhaseFromStageId (some "b8209429-fea3-4fde-9440-2bc168bf14b3") = 4 := by
  refine ⟨fun s t h => ?_, by decide, by decide⟩
  by_cases hs : s = ""
  · have ht : t = "" := by
      rw [← jsToLowerCase_eq_empty_iff, ← h, jsToLowerCase_eq_empty_iff]
      exact hs
    rw [hs, ht]
  · have ht : t ≠ "" := by
      intro ht0
      exact hs (by rw [← jsToLowerCase_eq_empty_iff, h, jsToLowerCase_eq_empty_iff]; exact ht0)
    simp only [getPhaseFromStageId]
    rw [if_neg hs, if_neg ht, h]

/-- Witness for C6: the two casings of the Umsetzung GUID agree. -/
theorem C6_witness :
    getPhaseFromStageId (some "B8209429-FEA3-4FDE-9440-2BC168BF14B3")
      = getPhaseFromStageId (some "b8209429-fea3-4fde-9440-2bc168bf14b3") :=
  C6_getPhaseFromStageId_case_insensitive.1 _ _ (by decide)

/-- C1 counterexample: a stored credential expiring 2 minutes from now
(within the 5-minute buffer) whose refresh round trip fails with a network
exception: `getValidToken` does throw the refresh error, but the stored
credential is NOT cleared and the subsequent `isAuthenticated()` is still
true — refuting the claim that every refresh failure mode clears the
credential and makes `isAuthenticated()` false. -/
theorem C1_getValidToken_cex :
    (getValidToken "url" .netError 0 (some ⟨"tok", "rtok", 120000, "res"⟩)).1
      = .error (.refreshFailed "Token konnte nicht erneuert werden. Bitte erneut anmelden.") ∧
    (getValidToken "url" .netError 0 (some ⟨"tok", "rtok", 120000, "res"⟩)).2
      = some ⟨"tok", "rtok", 120000, "res"⟩ ∧
    (isAuthenticated 0
        (getValidToken "url" .netError 0 (some ⟨"tok", "rtok", 120000, "res"⟩)).2).1
      = true := by
  exact ⟨rfl, rfl, rfl⟩

/-- C1 (amended): when the stored credential (with a non-empty access
token) is within the 5-minute refresh buffer and the refresh round trip
fails — non-2xx provider response, network exception, or missing refresh
token — `getValidToken` fails with the refresh error; the credential is
cleared (and `isAuthenticated()` subsequently false at every time) exactly
in the non-2xx-response mode, while a network exception or a missing
refresh token leaves the stored credential unchanged. -/
theorem C1_getValidToken_refresh_failure (url : String) (cache : TokenCache) (now : Int)
    (wire : RefreshWire)
    (hacc : cache.accessToken ≠ "")
    (hbuf : cache.expiresAt - now < TOKEN_REFRESH_BUFFER_MS)
    (hfail : cache.refreshToken = "" ∨ wire = .netError ∨ ∃ st, wire = .failure st) :
    (getValidToken url wire now (some cache)).1
      = .error (.refreshFailed "Token konnte nicht erneuert werden. Bitte erneut anmelden.") ∧
    (cache.refreshToken ≠ "" → (∃ st, wire = .failure st) →
      (getValidToken url wire now (some cache)).2 = none ∧
      ∀ t : Int, (isAuthenticated t (getValidToken url wire now (some cache)).2).1 = false) ∧
    ((cache.refreshToken = "" ∨ wire = .netError) →
      (getValidToken url wire now (some cache)).2 = some cache) := by
  by_cases hrt : cache.refreshToken = ""
  · have hra : refreshAccessToken url wire now (some cache) = (false, some cache) := by
      simp [refreshAccessToken, loadTokenCache, hrt]
    have hg : getValidToken url wire now (some cache)
        = (.error (.refreshFailed "Token konnte nicht erneuert werden. Bitte erneut anmelden."),
           some cache) := by
      simp [getValidToken, loadTokenCache, hacc, hbuf, hra]
    refine ⟨by rw [hg], fun h1 _ => absurd hrt h1, fun _ => by rw [hg]⟩
  · rcases hfail with h | h | ⟨st, h⟩
    · exact absurd h hrt
    · subst h
      have hra : refreshAccessToken url .netError now (some cache) = (false, some cache) := by
        simp [refreshAccessToken, loadTokenCache, hrt]
      have hg : getValidToken url .netError now (some cache)
          = (.error (.refreshFailed "Token konnte nicht erneuert werden. Bitte erneut anmelden."),
             some cache) := by
        simp [getValidToken, loadTokenCache, hacc, hbuf, hra]
      refine ⟨by rw [hg], fun _ hex => ?_, fun _ => by rw [hg]⟩
      obtain ⟨st, hst⟩ := hex
      simp at hst
    · subst h
      have hra : refreshAccessToken url (.failure st) now (some cache) = (false, none) := by
        simp [refreshAccessToken, loadTokenCache, clearTokenCache, hrt]
      have hg : getValidToken url (.failure st) now (some cache)
          = (.error (.refreshFailed "Token konnte nicht erneuert werden. Bitte erneut anmelden."),
             none) := by
        simp [getValidToken, loadTokenCache, hacc, hbuf, hra]
      refine ⟨by rw [hg], fun _ _ => ⟨by rw [hg], fun t => by rw [hg]; rfl⟩, fun hco => ?_⟩
      rcases hco with h | h
      · exact absurd h hrt
      · simp at h

/-- Witness for C1 (amended): a concrete non-2xx refresh failure clears the
stored credential. -/
theorem C1_witness :
    (getValidToken "url2" (.failure 500) 0 (some ⟨"tok2", "rtok2", 60000, "res2"⟩)).2 = none :=
  ((C1_getValidToken_refresh_failure "url2" ⟨"tok2", "rtok2", 60000, "res2"⟩ 0 (.failure 500)
      (by decide) (by decide) (Or.inr (Or.inr ⟨500, rfl⟩))).2.1
    (by decide) ⟨500, rfl⟩).1
